import Mathlib

/-!
Verification of the CTSM `RXCROPMATURITY` system test orchestrator.

Shallow embedding of `cime_config/SystemTests/rxcropmaturity.py` and of the
case-color helper in `python/ctsm/crop_calendars/cropcal_figs_module.py`.

Modeling conventions:
* Python machine arithmetic on the stop count is exact here: the Python code
  performs true division on numbers read from the case XML (integers), so the
  successive divisions are modeled with exact rationals (`ℚ`); `int(...)`
  truncation toward zero is `pyInt`.
* The filesystem is an oracle `String → Bool` (existence) plus explicit
  directory listings; external subprocesses are an oracle
  `String → ℤ × String` giving (exit status, combined stdout/stderr).
* `os.path.join(a, b)` is modeled as `a ++ "/" ++ b` (no component in this
  code is absolute or empty, which is the only case where they differ).
* Python's substring test `needle in hay` is `strContains hay needle`.
-/

/-- The single-quote character `'` (ASCII 39), used to build namelist text
without putting a quote character in a literal. -/
def quoteChar : Char := Char.ofNat 39

/-- The newline character (ASCII 10). -/
def newlineChar : Char := Char.ofNat 10

/-- A single-quote as a one-character string. -/
def sQuote : String := String.mk [quoteChar]

/-- Wrap a string in single quotes, as the namelist lines in the source do
with `"... = '{}'".format(...)`. -/
def quoted (s : String) : String := sQuote ++ s ++ sQuote

/-- Substring test on character lists: some tail of `hay` starts with
`needle`.  This is Python's `needle in hay` (for the list of code points). -/
def listContains (hay needle : List Char) : Bool :=
  match hay with
  | [] => needle.isEmpty
  | c :: rest => needle.isPrefixOf (c :: rest) || listContains rest needle

/-- Python's substring test `needle in hay` on strings. -/
def strContains (hay needle : String) : Bool :=
  listContains hay.data needle.data

/-- Python `int()` applied to an exact rational: truncation toward zero. -/
def pyInt (q : ℚ) : ℤ := if q < 0 then ⌈q⌉ else ⌊q⌋

instance {ε α : Type} [DecidableEq ε] [DecidableEq α] : DecidableEq (Except ε α) := fun x y =>
  match x, y with
  | Except.ok a, Except.ok b =>
    if h : a = b then isTrue (by rw [h]) else isFalse (by intro he; injection he; contradiction)
  | Except.error a, Except.error b =>
    if h : a = b then isTrue (by rw [h])
    else isFalse (by intro he; injection he; contradiction)
  | Except.ok _, Except.error _ => isFalse (fun he => Except.noConfusion he)
  | Except.error _, Except.ok _ => isFalse (fun he => Except.noConfusion he)

/-- One conversion step of the run-length validator
(`rxcropmaturity.py` lines 41-55): Python's
`if needle in stop_option: stop_n /= factor; stop_option = newUnit`. -/
def convert_step (needle : String) (factor : ℚ) (newUnit : String)
    (p : ℚ × String) : ℚ × String :=
  if strContains p.2 needle then (p.1 / factor, newUnit) else p

/-- The full normalization chain of `RXCROPMATURITY.__init__`
(lines 41-55): seconds→minutes→hours→days→years by 60, 60, 24, 365, and
months→years by 12.  The five `if`s run in sequence on the mutated pair,
exactly as in the source. -/
def normalizeStop (stop_n : ℚ) (stop_option : String) : ℚ × String :=
  convert_step "nmonth" 12 "nyears"
    (convert_step "nday" 365 "nyears"
      (convert_step "nhour" 24 "ndays"
        (convert_step "nminute" 60 "nhours"
          (convert_step "nsecond" 60 "nminutes" (stop_n, stop_option)))))

/-- The unit error message of `RXCROPMATURITY.__init__` (lines 58-61). -/
def stop_unit_err_msg (stop_option_orig : String) : String :=
  s!"STOP_OPTION ({stop_option_orig}) must be nsecond(s), nminute(s), nhour(s), nday(s), nmonth(s), or nyear(s)"

/-- The run-length error message of `RXCROPMATURITY.__init__` (lines 63-66);
the Python source interpolates `stop_option_orig[1:]`, i.e. the unit with its
first character dropped. -/
def run_length_err_msg (stop_n_orig : ℤ) (stop_option_orig : String) : String :=
  let tail := stop_option_orig.drop 1
  s!"RXCROPMATURITY must be run for at least 5 years; you requested {stop_n_orig} {tail}"

/-- Embedding of `RXCROPMATURITY.__init__` (lines 37-72): normalize the run length,
validate it, and either log-and-raise (first component is the list of logged
messages, mirroring `logger.error`; the `Except.error` is the raised
`RuntimeError`) or store `int(stop_n)` as the number of run years.
Note the length check overwrites a pending unit error, as in the source. -/
def rx_init (stop_n : ℤ) (stop_option : String) : List String × Except String ℤ :=
  let p := normalizeStop (stop_n : ℚ) stop_option
  let em1 : Option String :=
    if strContains p.2 "nyear" then none else some (stop_unit_err_msg stop_option)
  let em2 : Option String :=
    if p.1 < 5 then some (run_length_err_msg stop_n stop_option) else em1
  match em2 with
  | some m => ([m], Except.error m)
  | none => ([], Except.ok (pyInt p.1))

/-- Directory holding the blessed crop calendar files
(`rxcropmaturity.py` line 188). -/
def blessed_crop_dates_dir : String := "/glade/work/samrabin/crop_dates_blessed"

/-- Model of `os.path.join` as used in this code (no absolute second component). -/
def pathJoin (a b : String) : String := a ++ "/" ++ b

/-- Sowing date file for the 10x15 grid (lines 190-192). -/
def sdatefile_10x15 : String :=
  pathJoin blessed_crop_dates_dir
    "sdates_ggcmi_crop_calendar_phase3_v1.01_nninterp-f10_f10_mg37.2000-2000.20230330_165301.fill1.nc"

/-- Harvest date file for the 10x15 grid (lines 193-195). -/
def hdatefile_10x15 : String :=
  pathJoin blessed_crop_dates_dir
    "hdates_ggcmi_crop_calendar_phase3_v1.01_nninterp-f10_f10_mg37.2000-2000.20230330_165301.fill1.nc"

/-- Sowing date file for the 1.9x2.5 grid (lines 197-199). -/
def sdatefile_f19 : String :=
  pathJoin blessed_crop_dates_dir
    "sdates_ggcmi_crop_calendar_phase3_v1.01_nninterp-f19_g17.2000-2000.20230102_175625.fill1.nc"

/-- Harvest date file for the 1.9x2.5 grid (lines 200-202). -/
def hdatefile_f19 : String :=
  pathJoin blessed_crop_dates_dir
    "hdates_ggcmi_crop_calendar_phase3_v1.01_nninterp-f19_g17.2000-2000.20230102_175625.fill1.nc"

/-- The resolution lookup and file-existence checks of `_setup_all`
(lines 187-211).  The unsupported-resolution branch raises before either
existence test (so `fileExists` is never consulted there); for a supported
resolution the sowing file is tested first, then the harvest file.  The
error payloads are the messages the source prints before its bare `raise`;
note the source prints `self._sdatefile` in the harvest-file message too. -/
def crop_dates_lookup (lnd_grid : String) (fileExists : String → Bool) :
    Except String (String × String) :=
  match (if lnd_grid = "10x15" then some (sdatefile_10x15, hdatefile_10x15)
         else if lnd_grid = "1.9x2.5" then some (sdatefile_f19, hdatefile_f19)
         else none) with
  | none =>
      Except.error "ERROR: RXCROPMATURITY currently only supports 10x15 and 1.9x2.5 resolutions"
  | some (s, h) =>
      if fileExists s = false then
        Except.error ("ERROR: Sowing date file not found: " ++ s)
      else if fileExists h = false then
        Except.error ("ERROR: Harvest date file not found: " ++ s)
      else Except.ok (s, h)

/-- The fixed namelist additions of `_modify_user_nl_allruns` (lines 309-331),
in order. -/
def modify_user_nl_allruns_lines (lnd_domain_mesh sdatefile : String) : List String :=
  ["stream_meshfile_cropcal = " ++ quoted lnd_domain_mesh,
   "stream_fldFileName_sdate = " ++ quoted sdatefile,
   "stream_year_first_cropcal = 2000",
   "stream_year_last_cropcal = 2000",
   "model_year_align_cropcal = 2000",
   " ",
   "! (h1) Daily outputs for GDD generation and figure-making",
   "hist_fincl2 = " ++ String.intercalate ", " (["HUI", "GDDACCUM", "GDDHARV"].map quoted),
   "hist_nhtfrq(2) = -24",
   "hist_mfilt(2) = 365",
   "hist_type1d_pertape(2) = " ++ quoted "PFTS",
   "hist_dov2xy(2) = .false.",
   " ",
   "! (h2) Annual outputs for GDD generation (checks)",
   "hist_fincl3 = " ++ String.intercalate ", "
     (["GRAINC_TO_FOOD_PERHARV", "GRAINC_TO_FOOD_ANN", "SDATES", "SDATES_PERHARV",
       "SYEARS_PERHARV", "HDATES", "GDDHARV_PERHARV", "GDDACCUM_PERHARV",
       "HUI_PERHARV", "SOWING_REASON_PERHARV", "HARVEST_REASON_PERHARV"].map quoted),
   "hist_nhtfrq(3) = 17520",
   "hist_mfilt(3) = 999",
   "hist_type1d_pertape(3) = " ++ quoted "PFTS",
   "hist_dov2xy(3) = .false."]

/-- The regular-expression match of `run_phase` line 116,
`re.match(r" *flanduse_timeseries *= *'(.*)'", line)`, returning `group(1)`:
optional leading spaces, the literal key, optional spaces around `=`, an
opening quote, then a greedy `(.*)` (which cannot cross a newline) followed
by a quote — so the capture runs to the *last* quote on the line, and
trailing text after it is permitted. -/
def matchFlanduse (line : String) : Option String :=
  let l0 := line.data.dropWhile (fun c => c = ' ')
  if "flanduse_timeseries".data.isPrefixOf l0 then
    let l1 := l0.drop "flanduse_timeseries".data.length
    let l2 := l1.dropWhile (fun c => c = ' ')
    match l2 with
    | [] => none
    | c :: l3 =>
      if c = '=' then
        let l4 := l3.dropWhile (fun c => c = ' ')
        match l4 with
        | [] => none
        | q :: rest =>
          if q = quoteChar then
            let seg := rest.takeWhile (fun c => c ≠ newlineChar)
            if seg.any (fun c => c = quoteChar) then
              some (String.mk (((seg.reverse.dropWhile (fun c => c ≠ quoteChar)).drop 1).reverse))
            else none
          else none
      else none
  else none

/-- The line loop of `run_phase` lines 114-119: scan the generated `lnd_in`
text line by line, record the first match and stop; `none` when no line
matches (the initial `self._flanduse_timeseries_in = None` stands). -/
def scan_flanduse_timeseries : List String → Option String
  | [] => none
  | line :: rest =>
    match matchFlanduse line with
    | some v => some v
    | none => scan_flanduse_timeseries rest

/-- The conda environment name used for all tool invocations (line 28). -/
def this_conda_env : String := "ctsm_pylib"

/-- The clone directory path, `f"{caseroot}.gddgen"` (line 85). -/
def path_gddgen (caseroot : String) : String := caseroot ++ ".gddgen"

/-- `os.path.split(p)[-1]`: the final path component. -/
def basename (p : String) : String :=
  String.mk ((p.data.reverse.takeWhile (fun c => c ≠ '/')).reverse)

/-- Embedding of `_get_conda_env` (lines 369-386): if `which conda` succeeds the prelude
is a single space, otherwise the cheyenne module dance; then the
`conda run` prelude is appended. -/
def get_conda_env (which_conda_ok : Bool) : String :=
  (if which_conda_ok then " " else "module unload python; module load conda;") ++
    s!" conda run -n {this_conda_env} "

/-- The diagnostic lines printed by `_run_python_script` on a
`CalledProcessError` (lines 415-426), in print order.  The final entry
models `print(error.output)`: the subprocess's stdout/stderr were redirected
to the log file rather than captured, so `error.output` is Python `None` and
the printed text is the four characters `None`. -/
def guidance_lines (tool_name : String) : List String :=
  ["ERROR while getting the conda environment and/or ",
   s!"running the {tool_name} tool: ",
   s!"(1) If your {this_conda_env} environment is out of date or you ",
   s!"have not created the {this_conda_env} environment, yet, you may ",
   "get past this error by running ./py_env_create ",
   "in your ctsm directory and trying this test again. ",
   "(2) If conda is not available, install and load conda, ",
   "run ./py_env_create, and then try this test again. ",
   "(3) If (1) and (2) are not the issue, then you may be ",
   s!"getting an error within {tool_name} itself. ",
   "Default error message: ",
   "None"]

/-- Embedding of `_run_python_script` (lines 399-430).  `exec` is the shell: it maps the
composed command line to its exit status and combined stdout/stderr.
Returns (printed lines, written log file as name × contents, outcome); the
outcome is `Except.error _` exactly when the subprocess exited non-zero, in
which case the `CalledProcessError` is re-raised after the diagnostics. -/
def run_python_script (caseroot : String) (exec : String → ℤ × String)
    (which_conda_ok : Bool) (command tool_path : String) :
    List String × (String × String) × Except String Unit :=
  let tool_name := basename tool_path
  let composed :=
    (". " ++ caseroot ++ "/.env_mach_specific.sh; ") ++
      get_conda_env which_conda_ok ++ command
  let printed0 := [s!"command: {composed}"]
  let res := exec composed
  let log := (tool_name ++ ".log", res.2)
  if res.1 = 0 then (printed0, log, Except.ok ())
  else (printed0 ++ guidance_lines tool_name, log,
        Except.error ("CalledProcessError: " ++ composed))

/-- Python's `" ".join(...)`. -/
def joinSpace : List String → String
  | [] => ""
  | [a] => a
  | a :: rest => a ++ " " ++ joinSpace rest

/-- Tool path of `make_lu_for_gddgen.py` (lines 230-232). -/
def make_lu_tool_path (ctsm_root : String) : String :=
  ctsm_root ++ "/python/ctsm/crop_calendars/make_lu_for_gddgen.py"

/-- The pieces joined with spaces to form the `make_lu_for_gddgen.py` command
(lines 233-239). -/
def make_lu_args (ctsm_root flanduse_in outfile : String) (y1 yN : ℤ) : List String :=
  ["python3 " ++ make_lu_tool_path ctsm_root,
   "--flanduse-timeseries " ++ flanduse_in,
   "-y1 " ++ toString y1,
   "-yN " ++ toString yN,
   "--outfile " ++ outfile]

/-- Embedding of `_run_make_lu_for_gddgen` (lines 219-246): target path under the clone
root; invoke the generator only when the target does not already exist, with
`-y1 run_startyear` and `-yN run_startyear + run_Nyears`; in both cases
append the `flanduse_timeseries` namelist line pointing at the target.
Returns (the tool invocation pieces if the tool is run, the appended line). -/
def run_make_lu_for_gddgen (caseroot ctsm_root : String)
    (fileExists : String → Bool) (run_startyear run_Nyears : ℤ)
    (flanduse_in : String) : Option (List String) × String :=
  let flanduse_timeseries_out := pathJoin (path_gddgen caseroot) "flanduse_timeseries.nc"
  let inv :=
    if fileExists flanduse_timeseries_out then none
    else
      let first_fake_year := run_startyear
      let last_fake_year := first_fake_year + run_Nyears
      some (make_lu_args ctsm_root flanduse_in flanduse_timeseries_out
              first_fake_year last_fake_year)
  (inv, "flanduse_timeseries = " ++ quoted flanduse_timeseries_out)

/-- Does a file name match the glob pattern `gdds_*.nc` (line 361)?
For path-separator-free names this is exactly: starts with `gdds_` and ends
with `.nc` (no name shorter than the two pieces can satisfy both). -/
def matchesGddsGlob (name : String) : Bool :=
  "gdds_".data.isPrefixOf name.data && ".nc".data.isSuffixOf name.data

/-- The output-file discovery of `_run_generate_gdds` (lines 360-366):
glob `gdds_*.nc` in the tool output directory (glob returns the names joined
onto the directory), drop any result whose full path contains `fill0`, and
demand exactly one survivor.  `listing` is the directory's contents. -/
def discover_gdds_file (gdds_dir : String) (listing : List String) :
    Except String String :=
  let generated := (listing.filter matchesGddsGlob).map (fun n => pathJoin gdds_dir n)
  let generated := generated.filter (fun x => !(strContains x "fill0"))
  match generated with
  | [x] => Except.ok x
  | l =>
      Except.error
        ("ERROR: Expected one matching prescribed maturity requirements file; found "
          ++ toString l.length)

/-- The actions the orchestrator performs against the outside world, in
the order `run_phase` performs them. -/
inductive RxAction where
  | removeTree (path : String)
  | createClone (path : String)
  | appendUserNlClm (line : String)
  | createNamelists
  | checkAllInputData
  | runSubprocess (command : String)
  | runModel
  | makeDirs (path : String)
  deriving Repr, DecidableEq

/-- The externally supplied state `run_phase` consults: case configuration
values, the filesystem, the generated `lnd_in` text, the contents of the
`generate_gdds_out` directory after the derivation tool ran, and the shell. -/
structure RxEnv where
  caseroot : String
  ctsm_root : String
  lnd_grid : String
  lnd_domain_mesh : String
  run_startyear : ℤ
  dout_s_root : String
  fileExists : String → Bool
  lnd_in_lines : List String
  gdds_out_listing : List String
  which_conda_ok : Bool
  exec : String → ℤ × String

/-- Embedding of `_setup_all` (lines 170-216): resolve the crop date files for the grid
(failing as the source does), then append the fixed namelist lines.  Returns
the resolved (sowing, harvest) pair and the append actions. -/
def setup_all (env : RxEnv) : Except String ((String × String) × List RxAction) :=
  match crop_dates_lookup env.lnd_grid env.fileExists with
  | Except.error e => Except.error e
  | Except.ok (sd, hd) =>
      Except.ok ((sd, hd),
        (modify_user_nl_allruns_lines env.lnd_domain_mesh sd).map RxAction.appendUserNlClm)

/-- The namelist lines specific to the GDD-generating run (lines 101-104). -/
def gdd_gen_nl_lines : List String :=
  ["generate_crop_gdds = .true.", "use_mxmat = .false."]

/-- The namelist lines specific to the Prescribed Calendars run
(lines 156-159). -/
def rxboth_nl_lines (gdds_file : String) : List String :=
  ["generate_crop_gdds = .false.",
   "stream_fldFileName_cultivar_gdds = " ++ quoted gdds_file]

/-- Embedding of `_run_generate_gdds` (lines 334-366): make the output directory, invoke
`generate_gdds.py` over the archived history with season bounds
`run_startyear + 2` and `run_startyear + run_Nyears - 2`, then discover the
single `gdds_*.nc` output.  Returns the performed actions and either the
discovered maturity file path or the failure. -/
def run_generate_gdds (env : RxEnv) (run_Nyears : ℤ) (sdates_file hdates_file : String) :
    List RxAction × Except String String :=
  let gdds_dir := pathJoin (path_gddgen env.caseroot) "generate_gdds_out"
  let input_dir := pathJoin (pathJoin env.dout_s_root "lnd") "hist"
  let first_season := env.run_startyear + 2
  let last_season := env.run_startyear + run_Nyears - 2
  let tool_path := env.ctsm_root ++ "/python/ctsm/crop_calendars/generate_gdds.py"
  let args :=
    ["python3 " ++ tool_path,
     "--input-dir " ++ input_dir,
     "--first-season " ++ toString first_season,
     "--last-season " ++ toString last_season,
     "--sdates-file " ++ sdates_file,
     "--hdates-file " ++ hdates_file,
     "--output-dir generate_gdds_out"]
  let command := joinSpace args
  let acts := [RxAction.makeDirs gdds_dir, RxAction.runSubprocess command]
  match (run_python_script env.caseroot env.exec env.which_conda_ok command tool_path).2.2 with
  | Except.error e => (acts, Except.error e)
  | Except.ok _ => (acts, discover_gdds_file gdds_dir env.gdds_out_listing)

/-- Embedding of `_run_check_rxboth_run` (lines 291-306): invoke `check_rxboth_run.py`
over the run directory with the same trimmed year range, passing the sowing
date file and the derived maturity file.  The command is assembled by string
concatenation with trailing spaces, as in the source. -/
def run_check_rxboth_run (env : RxEnv) (run_Nyears : ℤ) (sdatefile gdds_file : String) :
    List RxAction × Except String Unit :=
  let output_dir := pathJoin env.caseroot "run"
  let first_usable_year := env.run_startyear + 2
  let last_usable_year := env.run_startyear + run_Nyears - 2
  let tool_path := env.ctsm_root ++ "/python/ctsm/crop_calendars/check_rxboth_run.py"
  let command :=
    ("python3 " ++ tool_path ++ " ") ++
    ("--directory " ++ output_dir ++ " ") ++
    ("-y1 " ++ toString first_usable_year ++ " ") ++
    ("-yN " ++ toString last_usable_year ++ " ") ++
    ("--rx-sdates-file " ++ sdatefile ++ " ") ++
    ("--rx-gdds-file " ++ gdds_file ++ " ")
  ([RxAction.runSubprocess command],
   (run_python_script env.caseroot env.exec env.which_conda_ok command tool_path).2.2)

/-- Embedding of `run_phase` (lines 74-167) as a trace of external actions together with
the propagated outcome: clone the case (removing a stale clone first), set
both runs up, scan `lnd_in` for `flanduse_timeseries` and regenerate it if
configured, run the GDD-generating simulation, derive the maturity file,
reconfigure the original case, run it, and validate. -/
def rx_run_phase (env : RxEnv) (run_Nyears : ℤ) : List RxAction × Except String Unit :=
  let clone_path := path_gddgen env.caseroot
  let acts0 := (if env.fileExists clone_path then [RxAction.removeTree clone_path] else [])
                ++ [RxAction.createClone clone_path]
  match setup_all env with
  | Except.error e => (acts0, Except.error e)
  | Except.ok ((sd, hd), setupActs) =>
    let acts1 := acts0 ++ setupActs ++ gdd_gen_nl_lines.map RxAction.appendUserNlClm
                  ++ [RxAction.createNamelists]
    let luStep : List RxAction × Except String Unit :=
      match scan_flanduse_timeseries env.lnd_in_lines with
      | none => ([], Except.ok ())
      | some flanduse_in =>
        let (inv, nl_line) :=
          run_make_lu_for_gddgen env.caseroot env.ctsm_root env.fileExists
            env.run_startyear run_Nyears flanduse_in
        match inv with
        | none => ([RxAction.checkAllInputData, RxAction.appendUserNlClm nl_line], Except.ok ())
        | some args =>
          let command := joinSpace args
          match (run_python_script env.caseroot env.exec env.which_conda_ok command
                   (make_lu_tool_path env.ctsm_root)).2.2 with
          | Except.error e =>
              ([RxAction.checkAllInputData, RxAction.runSubprocess command], Except.error e)
          | Except.ok _ =>
              ([RxAction.checkAllInputData, RxAction.runSubprocess command,
                RxAction.appendUserNlClm nl_line], Except.ok ())
    match luStep with
    | (la, Except.error e) => (acts1 ++ la, Except.error e)
    | (la, Except.ok _) =>
      let acts2 := acts1 ++ la ++ [RxAction.runModel]
      match run_generate_gdds env run_Nyears sd hd with
      | (ga, Except.error e) => (acts2 ++ ga, Except.error e)
      | (ga, Except.ok gdds_file) =>
        match setup_all env with
        | Except.error e => (acts2 ++ ga, Except.error e)
        | Except.ok (_, setupActs2) =>
          let acts3 := acts2 ++ ga ++ setupActs2
                        ++ (rxboth_nl_lines gdds_file).map RxAction.appendUserNlClm
                        ++ [RxAction.runModel]
          let (ca, r) := run_check_rxboth_run env run_Nyears sd gdds_file
          (acts3 ++ ca, r)

/-- The whole system test: construction (`__init__`, which validates the run
length) followed, only on success, by `run_phase`.  Returns the logged
messages, the external actions performed, and the outcome. -/
def rxcropmaturity_test (env : RxEnv) (stop_n : ℤ) (stop_option : String) :
    List String × List RxAction × Except String Unit :=
  match rx_init stop_n stop_option with
  | (logs, Except.error e) => (logs, [], Except.error e)
  | (logs, Except.ok run_Nyears) =>
    let (acts, r) := rx_run_phase env run_Nyears
    (logs, acts, r)

/-- Python `str.lower()` restricted to what `Char.toLower` covers (ASCII,
which is all the recognized case names use). -/
def pyLower (s : String) : String := String.mk (s.data.map Char.toLower)

/-- Helper for Python `str.replace`: scan the haystack left to right; a
positive `skip` counter consumes characters already covered by the
occurrence just replaced (structural recursion on the haystack). -/
def replaceAllAux (needle repl : List Char) : List Char → ℕ → List Char
  | [], _ => []
  | _ :: rest, Nat.succ k => replaceAllAux needle repl rest k
  | c :: rest, 0 =>
    if needle.isPrefixOf (c :: rest) then
      repl ++ replaceAllAux needle repl rest (needle.length - 1)
    else c :: replaceAllAux needle repl rest 0

/-- Python `str.replace(needle, repl)` on character lists: replace every
occurrence, scanning left to right, non-overlapping.  An empty needle
leaves the list unchanged (the needles used here are never empty). -/
def replaceAll (needle repl hay : List Char) : List Char :=
  match needle with
  | [] => hay
  | _ :: _ => replaceAllAux needle repl hay 0

/-- Python `str.replace` on strings (all occurrences). -/
def pyReplace (s needle repl : String) : String :=
  String.mk (replaceAll needle.data repl.data s.data)

/-- RGB of `"clm default"`: `[x / 255 for x in [92, 219, 219]]`
(`cropcal_figs_module.py` line 36). -/
def clm_default_color : List ℚ := [92/255, 219/255, 219/255]

/-- RGB of `"prescribed calendars"` (line 37). -/
def prescribed_calendars_color : List ℚ := [250/255, 102/255, 240/255]

/-- The case-color dictionary of `cropcal_colors_cases` (lines 35-42): the
four literal entries plus the `"5.0 lu"` and `"5.2 lu"` aliases that reuse
the first two colors. -/
def case_color_dict : List (String × List ℚ) :=
  [("clm default", clm_default_color),
   ("prescribed calendars", prescribed_calendars_color),
   ("prescribed maturity", [128/255, 0/255, 0/255]),
   ("prescribed sowing", [133/255, 92/255, 255/255]),
   ("5.0 lu", clm_default_color),
   ("5.2 lu", prescribed_calendars_color)]

/-- The normalized lookup key of `cropcal_colors_cases` (line 45):
`casename.lower().replace(" (0)", "").replace(" (1)", "")` — note both
`replace` calls remove *every* occurrence, not only a trailing marker. -/
def casename_for_colors (casename : String) : String :=
  pyReplace (pyReplace (pyLower casename) (" (0)") "") (" (1)") ""

/-- Embedding of `cropcal_colors_cases` (lines 34-48): dictionary lookup on the
normalized key, `none` when the key is absent (the function never raises). -/
def cropcal_colors_cases (casename : String) : Option (List ℚ) :=
  (case_color_dict.find? (fun p => p.1 == casename_for_colors casename)).map (fun p => p.2)

/-- The case-color lookup as the claim words it: lowercase, then strip one
*trailing* ` (0)` or ` (1)` marker, then the same dictionary lookup.
This follows the claim text, for comparison with `cropcal_colors_cases`
(which embeds the source). -/
def casename_key_claim (casename : String) : String :=
  let l := pyLower casename
  if (" (0)").data.isSuffixOf l.data || (" (1)").data.isSuffixOf l.data then
    String.mk (l.data.take (l.data.length - 4))
  else l

/-- The case-color lookup as the claim words it (trailing-marker variant),
for comparison with the source embedding `cropcal_colors_cases`. -/
def cropcal_colors_cases_claim (casename : String) : Option (List ℚ) :=
  (case_color_dict.find? (fun p => p.1 == casename_key_claim casename)).map (fun p => p.2)

/-- An arbitrary concrete environment used by witnesses. -/
def env0 : RxEnv :=
  { caseroot := "/scratch/tests/RXCROPMATURITY.f10"
    ctsm_root := "/src/ctsm"
    lnd_grid := "10x15"
    lnd_domain_mesh := "/inputdata/mesh10x15.nc"
    run_startyear := 2000
    dout_s_root := "/scratch/archive"
    fileExists := fun _ => false
    lnd_in_lines := []
    gdds_out_listing := []
    which_conda_ok := true
    exec := fun _ => (0, "") }

/-! ## Helper lemmas for the run-length validator -/

theorem normalize_nseconds (q : ℚ) :
    normalizeStop q "nseconds" = (q / 60 / 60 / 24 / 365, "nyears") := rfl

theorem normalize_nminutes (q : ℚ) :
    normalizeStop q "nminutes" = (q / 60 / 24 / 365, "nyears") := rfl

theorem normalize_nhours (q : ℚ) :
    normalizeStop q "nhours" = (q / 24 / 365, "nyears") := rfl

theorem normalize_ndays (q : ℚ) :
    normalizeStop q "ndays" = (q / 365, "nyears") := rfl

theorem normalize_nmonths (q : ℚ) :
    normalizeStop q "nmonths" = (q / 12, "nyears") := rfl

theorem normalize_nsecond (q : ℚ) :
    normalizeStop q "nsecond" = (q / 60 / 60 / 24 / 365, "nyears") := rfl

theorem normalize_nminute (q : ℚ) :
    normalizeStop q "nminute" = (q / 60 / 24 / 365, "nyears") := rfl

theorem normalize_nhour (q : ℚ) :
    normalizeStop q "nhour" = (q / 24 / 365, "nyears") := rfl

theorem normalize_nday (q : ℚ) :
    normalizeStop q "nday" = (q / 365, "nyears") := rfl

theorem normalize_nmonth (q : ℚ) :
    normalizeStop q "nmonth" = (q / 12, "nyears") := rfl

theorem rx_init_ok_eval (stop_n : ℤ) (u : String) (v : ℚ) (y : ℤ)
    (hn : normalizeStop (stop_n : ℚ) u = (v, "nyears"))
    (h : (rx_init stop_n u).2 = Except.ok y) : ¬ v < 5 ∧ y = ⌊v⌋ := by
  simp only [rx_init, hn] at h
  by_cases h5 : v < 5
  · simp [h5] at h
  · refine ⟨h5, ?_⟩
    simp only [h5, if_false, show strContains "nyears" "nyear" = true from rfl, if_true] at h
    have : pyInt v = y := by
      simpa using h
    rw [← this, pyInt, if_neg (by push_neg at h5; intro hlt; linarith)]

/-- C1: For every (stop-count, stop-unit) input whose unit is seconds,
minutes, hours, days, or months (singular or plural spelling), the validator
normalizes along the fixed chain (60, 60, 24, 365; months directly by 12),
and whenever construction succeeds the stored number of run years is the
floor of the fully converted value `stop_n / f`. -/
theorem run_length_normalization_floor (stop_n y : ℤ) (u : String) (f : ℚ)
    (hu : (u, f) ∈ [("nseconds", (31536000 : ℚ)), ("nminutes", 525600),
                    ("nhours", 8760), ("ndays", 365), ("nmonths", 12),
                    ("nsecond", 31536000), ("nminute", 525600),
                    ("nhour", 8760), ("nday", 365), ("nmonth", 12)])
    (h : (rx_init stop_n u).2 = Except.ok y) :
    y = ⌊(stop_n : ℚ) / f⌋ := by
  simp only [List.mem_cons, List.not_mem_nil, or_false, Prod.mk.injEq] at hu
  rcases hu with h | h | h | h | h | h | h | h | h | h <;> obtain ⟨rfl, rfl⟩ := h
  · obtain ⟨-, hy⟩ := rx_init_ok_eval stop_n _ _ y (normalize_nseconds _) h
    rw [hy]; congr 1
    rw [div_div, div_div, div_div]; norm_num
  · obtain ⟨-, hy⟩ := rx_init_ok_eval stop_n _ _ y (normalize_nminutes _) h
    rw [hy]; congr 1
    rw [div_div, div_div]; norm_num
  · obtain ⟨-, hy⟩ := rx_init_ok_eval stop_n _ _ y (normalize_nhours _) h
    rw [hy]; congr 1
    rw [div_div]; norm_num
  · exact (rx_init_ok_eval stop_n _ _ y (normalize_ndays _) h).2
  · exact (rx_init_ok_eval stop_n _ _ y (normalize_nmonths _) h).2
  · obtain ⟨-, hy⟩ := rx_init_ok_eval stop_n _ _ y (normalize_nsecond _) h
    rw [hy]; congr 1
    rw [div_div, div_div, div_div]; norm_num
  · obtain ⟨-, hy⟩ := rx_init_ok_eval stop_n _ _ y (normalize_nminute _) h
    rw [hy]; congr 1
    rw [div_div, div_div]; norm_num
  · obtain ⟨-, hy⟩ := rx_init_ok_eval stop_n _ _ y (normalize_nhour _) h
    rw [hy]; congr 1
    rw [div_div]; norm_num
  · exact (rx_init_ok_eval stop_n _ _ y (normalize_nday _) h).2
  · exact (rx_init_ok_eval stop_n _ _ y (normalize_nmonth _) h).2

/-- Witness for C1: 60 months normalize to ⌊60/12⌋ = 5 stored years. -/
theorem run_length_normalization_floor_witness :
    (5 : ℤ) = ⌊((60 : ℤ) : ℚ) / 12⌋ :=
  run_length_normalization_floor 60 5 "nmonths" 12 (by simp)
    (by
      simp only [rx_init, normalize_nmonths, show strContains "nyears" "nyear" = true from rfl,
        if_true]
      norm_num [pyInt])

/-- C2 (amended): for every stop-unit that never reduces to years along the
conversion chain, construction fails regardless of the stop-count; the
raised (and logged) message is the unit error naming the invalid stop option
when the stop-count check passes, and the run-length error otherwise (the
length check overwrites the pending unit error). -/
theorem non_year_unit_fails (stop_n : ℤ) (u : String)
    (h : strContains (normalizeStop (stop_n : ℚ) u).2 "nyear" = false) :
    rx_init stop_n u =
      (if (normalizeStop (stop_n : ℚ) u).1 < 5
       then ([run_length_err_msg stop_n u], Except.error (run_length_err_msg stop_n u))
       else ([stop_unit_err_msg u], Except.error (stop_unit_err_msg u))) := by
  by_cases h5 : (normalizeStop (stop_n : ℚ) u).1 < 5
  · simp [rx_init, h, h5]
  · simp [rx_init, h, h5]

/-- Counterexample to C2 as stated: the unit `"none"` never reduces to
years, yet with stop-count 3 construction raises the run-length error, not
the unit error (which would have named the invalid stop option). -/
theorem non_year_unit_fails_counterexample :
    strContains (normalizeStop ((3 : ℤ) : ℚ) "none").2 "nyear" = false ∧
    (rx_init 3 "none").2 = Except.error (run_length_err_msg 3 "none") ∧
    run_length_err_msg 3 "none" ≠ stop_unit_err_msg "none" := by
  refine ⟨rfl, rfl, ?_⟩
  decide

/-- Witness for C2 (amended): unit `"none"` with stop-count 7 yields the
unit error. -/
theorem non_year_unit_fails_witness :
    rx_init 7 "none" = ([stop_unit_err_msg "none"], Except.error (stop_unit_err_msg "none")) := by
  have h5 : ¬ ((normalizeStop ((7 : ℤ) : ℚ) "none").1 < 5) := by
    have e : normalizeStop ((7 : ℤ) : ℚ) "none" = (((7 : ℤ) : ℚ), "none") := rfl
    rw [e]
    norm_num
  rw [non_year_unit_fails 7 "none" rfl, if_neg h5]

/-- C3: whenever the normalized year count is below 5, the whole test logs
the run-length violation and raises it at construction time: the action
trace is empty, so no clone is created and no subprocess is spawned. -/
theorem short_run_fails_before_any_action (env : RxEnv) (stop_n : ℤ) (stop_option : String)
    (h : (normalizeStop (stop_n : ℚ) stop_option).1 < 5) :
    rxcropmaturity_test env stop_n stop_option =
      ([run_length_err_msg stop_n stop_option], [],
       Except.error (run_length_err_msg stop_n stop_option)) := by
  simp [rxcropmaturity_test, rx_init, h]

/-- Witness for C3: a 3-year run in `env0` logs and raises the length
error with no actions performed. -/
theorem short_run_fails_before_any_action_witness :
    (normalizeStop ((3 : ℤ) : ℚ) "nyears").1 < 5 ∧
    rxcropmaturity_test env0 3 "nyears" =
      ([run_length_err_msg 3 "nyears"], [], Except.error (run_length_err_msg 3 "nyears")) := by
  have h : (normalizeStop ((3 : ℤ) : ℚ) "nyears").1 < 5 := by
    have e : normalizeStop ((3 : ℤ) : ℚ) "nyears" = (((3 : ℤ) : ℚ), "nyears") := rfl
    rw [e]
    norm_num
  exact ⟨h, short_run_fails_before_any_action env0 3 "nyears" h⟩

/-- C4: the resolver returns the fixed path pair for each of the two
supported resolutions (failing when either file is missing, sowing checked
first), and for every other identifier it fails with the fixed message
without consulting the filesystem at all (the result is the same for every
existence oracle). -/
theorem resolution_lookup_spec (g : String) (fe fe' : String → Bool) :
    (crop_dates_lookup "10x15" fe =
      (if fe sdatefile_10x15 = false then
         Except.error ("ERROR: Sowing date file not found: " ++ sdatefile_10x15)
       else if fe hdatefile_10x15 = false then
         Except.error ("ERROR: Harvest date file not found: " ++ sdatefile_10x15)
       else Except.ok (sdatefile_10x15, hdatefile_10x15))) ∧
    (crop_dates_lookup "1.9x2.5" fe =
      (if fe sdatefile_f19 = false then
         Except.error ("ERROR: Sowing date file not found: " ++ sdatefile_f19)
       else if fe hdatefile_f19 = false then
         Except.error ("ERROR: Harvest date file not found: " ++ sdatefile_f19)
       else Except.ok (sdatefile_f19, hdatefile_f19))) ∧
    (g ≠ "10x15" → g ≠ "1.9x2.5" →
      crop_dates_lookup g fe =
        Except.error "ERROR: RXCROPMATURITY currently only supports 10x15 and 1.9x2.5 resolutions"
      ∧ crop_dates_lookup g fe = crop_dates_lookup g fe') := by
  refine ⟨rfl, rfl, fun h1 h2 => ?_⟩
  simp [crop_dates_lookup, h1, h2]

/-- Witness for C4: the supported `"10x15"` with everything on disk, and
the unsupported `"4x5"`. -/
theorem resolution_lookup_spec_witness :
    crop_dates_lookup "10x15" (fun _ => true) = Except.ok (sdatefile_10x15, hdatefile_10x15) ∧
    crop_dates_lookup "4x5" (fun _ => true) =
      Except.error "ERROR: RXCROPMATURITY currently only supports 10x15 and 1.9x2.5 resolutions" := by
  obtain ⟨h1, -, h3⟩ := resolution_lookup_spec "4x5" (fun _ => true) (fun _ => false)
  exact ⟨by rw [h1]; rfl, (h3 (by decide) (by decide)).1⟩

/-! ## Substring lemmas for the output-file discovery -/

theorem listContains_iff_infix (hay needle : List Char) :
    listContains hay needle = true ↔ needle <:+: hay := by
  induction hay with
  | nil =>
    simp only [listContains, List.isEmpty_iff, List.infix_nil]
  | cons c rest ih =>
    simp only [listContains, Bool.or_eq_true, List.isPrefixOf_iff_prefix, ih,
      List.infix_cons_iff]

theorem prefix_append_sep {needle a b : List Char} {sep : Char} (hsep : sep ∉ needle) :
    needle <+: a ++ sep :: b ↔ needle <+: a := by
  constructor
  · intro h
    by_cases hl : needle.length ≤ a.length
    · exact (List.isPrefix_append_of_length hl).mp h
    · exfalso
      have ha : a <+: needle :=
        List.prefix_of_prefix_length_le (List.prefix_append a (sep :: b)) h (by omega)
      obtain ⟨t, rfl⟩ := ha
      obtain ⟨r, hr⟩ := h
      rw [List.append_assoc] at hr
      have ht := List.append_cancel_left hr
      cases t with
      | nil => simp at hl
      | cons t0 ts =>
        have : t0 = sep := by
          have := congrArg (fun l => l.head?) ht
          simpa using this
        exact hsep (by simp [this])
  · intro h
    exact h.trans (List.prefix_append a (sep :: b))

theorem infix_append_sep {needle a b : List Char} {sep : Char}
    (hne : needle ≠ []) (hsep : sep ∉ needle) :
    needle <:+: a ++ sep :: b ↔ needle <:+: a ∨ needle <:+: b := by
  induction a with
  | nil =>
    simp only [List.nil_append, List.infix_cons_iff, List.infix_nil]
    constructor
    · rintro (hp | hi)
      · exfalso
        cases needle with
        | nil => exact hne rfl
        | cons n0 nt =>
          rw [List.cons_prefix_cons] at hp
          exact hsep (by simp [hp.1])
      · exact Or.inr hi
    · rintro (rfl | hi)
      · exact absurd rfl hne
      · exact Or.inr hi
  | cons c a' ih =>
    have h1 : needle <+: c :: (a' ++ sep :: b) ↔ needle <+: c :: a' := by
      have h2 := @prefix_append_sep needle (c :: a') b sep hsep
      simpa using h2
    rw [List.cons_append, List.infix_cons_iff, ih, h1, List.infix_cons_iff, or_assoc]

theorem strContains_pathJoin (dir name needle : String)
    (hne : needle.data ≠ []) (hsep : '/' ∉ needle.data) :
    strContains (pathJoin dir name) needle =
      (strContains dir needle || strContains name needle) := by
  have hdata : (pathJoin dir name).data = dir.data ++ '/' :: name.data := by
    simp [pathJoin, String.data_append]
  rw [Bool.eq_iff_iff]
  simp only [strContains, hdata, Bool.or_eq_true, listContains_iff_infix]
  exact infix_append_sep hne hsep

/-- C5: over any output directory whose own path is `fill0`-free (the claim
implicitly speaks of file names; the source tests the joined path), the
discovery step returns the single surviving `gdds_*.nc` name joined onto the
directory, and fails with the counting error whenever the number of
survivors differs from one. -/
theorem gdds_discovery_spec (gdds_dir x : String) (listing : List String)
    (hdir : strContains gdds_dir "fill0" = false) :
    (listing.filter (fun n => matchesGddsGlob n && !(strContains n "fill0")) = [x] →
       discover_gdds_file gdds_dir listing = Except.ok (pathJoin gdds_dir x)) ∧
    ((listing.filter (fun n => matchesGddsGlob n && !(strContains n "fill0"))).length ≠ 1 →
       discover_gdds_file gdds_dir listing =
         Except.error
           ("ERROR: Expected one matching prescribed maturity requirements file; found "
             ++ toString
                  (listing.filter (fun n => matchesGddsGlob n && !(strContains n "fill0"))).length)) := by
  have hgen : ((listing.filter matchesGddsGlob).map (fun n => pathJoin gdds_dir n)).filter
        (fun x => !(strContains x "fill0")) =
      (listing.filter (fun n => matchesGddsGlob n && !(strContains n "fill0"))).map
        (fun n => pathJoin gdds_dir n) := by
    rw [List.filter_map, List.filter_filter]
    congr 1
    apply List.filter_congr
    intro n _
    rw [Function.comp_apply, strContains_pathJoin gdds_dir n "fill0" (by decide) (by decide),
      hdir]
    simp [Bool.and_comm]
  constructor
  · intro h1
    simp only [discover_gdds_file, hgen, h1, List.map_cons, List.map_nil]
  · intro h2
    cases hk : listing.filter (fun n => matchesGddsGlob n && !(strContains n "fill0")) with
    | nil => simp only [discover_gdds_file, hgen, hk, List.map_nil, List.length_nil]
    | cons a t =>
      cases t with
      | nil => rw [hk] at h2; simp at h2
      | cons b t2 =>
        simp only [discover_gdds_file, hgen, hk, List.map_cons, List.length_cons,
          List.length_map]

/-- Witness for C5: one matching file, one `fill0` variant, one unrelated
file. -/
theorem gdds_discovery_spec_witness :
    discover_gdds_file "/case.gddgen/generate_gdds_out"
        ["gdds_20230331_144207.nc", "gdds_20230331_144207_fill0.nc", "notes.txt"] =
      Except.ok (pathJoin "/case.gddgen/generate_gdds_out" "gdds_20230331_144207.nc") :=
  (gdds_discovery_spec "/case.gddgen/generate_gdds_out" "gdds_20230331_144207.nc"
      ["gdds_20230331_144207.nc", "gdds_20230331_144207_fill0.nc", "notes.txt"]
      (by decide)).1 (by decide)

/-! ## Locating arguments inside assembled command lines -/

theorem strContains_of_eq_data (hay needle : String) (pre post : List Char)
    (h : hay.data = pre ++ needle.data ++ post) : strContains hay needle = true := by
  simp only [strContains, listContains_iff_infix]
  exact ⟨pre, post, h.symm⟩

theorem infix_joinSpace {l : List String} {x : String} (hx : x ∈ l) :
    x.data <:+: (joinSpace l).data := by
  induction l with
  | nil => cases hx
  | cons a rest ih =>
    cases rest with
    | nil =>
      rw [List.mem_singleton] at hx
      subst hx
      exact List.infix_refl _
    | cons r rs =>
      rcases List.mem_cons.mp hx with rfl | hmem
      · refine ⟨[], (" " ++ joinSpace (r :: rs)).data, ?_⟩
        simp [joinSpace, String.data_append]
      · have h2 : (joinSpace (r :: rs)).data <:+: (joinSpace (a :: r :: rs)).data := by
          refine ⟨(a ++ " ").data, [], ?_⟩
          simp [joinSpace, String.data_append]
        exact (ih hmem).trans h2

theorem strContains_joinSpace {l : List String} {x : String} (hx : x ∈ l) :
    strContains (joinSpace l) x = true := by
  simp only [strContains, listContains_iff_infix]
  exact infix_joinSpace hx

theorem run_generate_gdds_acts (env : RxEnv) (nY : ℤ) (sd hd : String) :
    (run_generate_gdds env nY sd hd).1 =
      [RxAction.makeDirs (pathJoin (path_gddgen env.caseroot) "generate_gdds_out"),
       RxAction.runSubprocess (joinSpace
         ["python3 " ++ (env.ctsm_root ++ "/python/ctsm/crop_calendars/generate_gdds.py"),
          "--input-dir " ++ pathJoin (pathJoin env.dout_s_root "lnd") "hist",
          "--first-season " ++ toString (env.run_startyear + 2),
          "--last-season " ++ toString (env.run_startyear + nY - 2),
          "--sdates-file " ++ sd,
          "--hdates-file " ++ hd,
          "--output-dir generate_gdds_out"])] := by
  unfold run_generate_gdds
  dsimp only
  split <;> rfl

/-- C6: both the maturity-derivation step and the validation step spawn
their tool with first usable season year `run_startyear + 2` and last usable
season year `run_startyear + run_Nyears - 2`; for a 5-year run the last
bound is `run_startyear + 3`. -/
theorem usable_season_bounds (env : RxEnv) (nY : ℤ) (sd hd gd : String) :
    (∃ cmd, RxAction.runSubprocess cmd ∈ (run_generate_gdds env nY sd hd).1 ∧
       strContains cmd ("--first-season " ++ toString (env.run_startyear + 2)) = true ∧
       strContains cmd ("--last-season " ++ toString (env.run_startyear + nY - 2)) = true) ∧
    (∃ cmd, RxAction.runSubprocess cmd ∈ (run_check_rxboth_run env nY sd gd).1 ∧
       strContains cmd ("-y1 " ++ toString (env.run_startyear + 2) ++ " ") = true ∧
       strContains cmd ("-yN " ++ toString (env.run_startyear + nY - 2) ++ " ") = true) ∧
    (nY = 5 → env.run_startyear + nY - 2 = env.run_startyear + 3) := by
  refine ⟨?_, ?_, fun h5 => by omega⟩
  · rw [run_generate_gdds_acts]
    refine ⟨_, List.mem_cons_of_mem _ (List.mem_cons_self _ _), ?_, ?_⟩
    · exact strContains_joinSpace (by simp)
    · exact strContains_joinSpace (by simp)
  · refine ⟨_, show _ ∈ [_] from List.mem_cons_self _ _, ?_, ?_⟩
    · refine strContains_of_eq_data _ _
        (("python3 " ++ (env.ctsm_root ++ "/python/ctsm/crop_calendars/check_rxboth_run.py")
            ++ " ") ++ ("--directory " ++ pathJoin env.caseroot "run" ++ " ")).data
        ((("-yN " ++ toString (env.run_startyear + nY - 2) ++ " ") ++
          ("--rx-sdates-file " ++ sd ++ " ") ++ ("--rx-gdds-file " ++ gd ++ " ")).data) ?_
      simp [run_check_rxboth_run, String.data_append, List.append_assoc]
    · refine strContains_of_eq_data _ _
        ((("python3 " ++ (env.ctsm_root ++ "/python/ctsm/crop_calendars/check_rxboth_run.py")
            ++ " ") ++ ("--directory " ++ pathJoin env.caseroot "run" ++ " ") ++
          ("-y1 " ++ toString (env.run_startyear + 2) ++ " ")).data)
        ((("--rx-sdates-file " ++ sd ++ " ") ++ ("--rx-gdds-file " ++ gd ++ " ")).data) ?_
      simp [run_check_rxboth_run, String.data_append, List.append_assoc]

/-- Witness for C6: a 5-year run starting in `env0`'s start year 2000. -/
theorem usable_season_bounds_witness :
    (∃ cmd, RxAction.runSubprocess cmd ∈ (run_generate_gdds env0 5 "/sd.nc" "/hd.nc").1 ∧
       strContains cmd ("--first-season " ++ toString (env0.run_startyear + 2)) = true ∧
       strContains cmd ("--last-season " ++ toString (env0.run_startyear + 5 - 2)) = true) ∧
    env0.run_startyear + 5 - 2 = env0.run_startyear + 3 := by
  obtain ⟨h1, -, h3⟩ := usable_season_bounds env0 5 "/sd.nc" "/hd.nc" "/gd.nc"
  exact ⟨h1, h3 rfl⟩

/-! ## The namelist scanner on well-formed lines -/

theorem dropWhile_space_replicate (k : ℕ) (l : List Char) :
    (List.replicate k ' ' ++ l).dropWhile (fun c => c = ' ') =
      l.dropWhile (fun c => c = ' ') := by
  induction k with
  | zero => simp
  | succ n ih => simp [List.replicate_succ, List.dropWhile_cons, ih]

theorem matchFlanduse_spaces (k : ℕ) (l : List Char) :
    matchFlanduse (String.mk (List.replicate k ' ' ++ l)) = matchFlanduse (String.mk l) := by
  unfold matchFlanduse
  rw [show (String.mk (List.replicate k ' ' ++ l)).data = List.replicate k ' ' ++ l from rfl,
    show (String.mk l).data = l from rfl, dropWhile_space_replicate]

theorem matchFlanduse_front (tail : List Char) :
    matchFlanduse (String.mk ("flanduse_timeseries = ".data ++ quoteChar :: tail)) =
      (let seg := tail.takeWhile (fun c => c ≠ newlineChar)
       if seg.any (fun c => c = quoteChar) then
         some (String.mk (((seg.reverse.dropWhile (fun c => c ≠ quoteChar)).drop 1).reverse))
       else none) := rfl

theorem matchFlanduse_value (xd : List Char)
    (hx : ∀ c ∈ xd, c ≠ quoteChar ∧ c ≠ newlineChar) :
    matchFlanduse
        (String.mk ("flanduse_timeseries = ".data ++ quoteChar :: (xd ++ [quoteChar]))) =
      some (String.mk xd) := by
  rw [matchFlanduse_front]
  have hseg : (xd ++ [quoteChar]).takeWhile (fun c => c ≠ newlineChar) = xd ++ [quoteChar] := by
    rw [List.takeWhile_eq_self_iff]
    intro c hc
    rcases List.mem_append.mp hc with h | h
    · simpa using (hx c h).2
    · rw [List.mem_singleton] at h
      subst h
      simp [quoteChar, newlineChar]
  have hany : (xd ++ [quoteChar]).any (fun c => c = quoteChar) = true := by
    simp [List.any_append]
  simp only [hseg, hany, if_true]
  simp [List.reverse_append, List.dropWhile_cons]

theorem scan_append_none (pre rest : List String)
    (hpre : ∀ l ∈ pre, matchFlanduse l = none) :
    scan_flanduse_timeseries (pre ++ rest) = scan_flanduse_timeseries rest := by
  induction pre with
  | nil => rfl
  | cons a t ih =>
    rw [List.cons_append]
    simp only [scan_flanduse_timeseries, hpre a (List.mem_cons_self a t)]
    exact ih (fun l hl => hpre l (List.mem_cons_of_mem a hl))

theorem scan_none (text : List String) (h : ∀ l ∈ text, matchFlanduse l = none) :
    scan_flanduse_timeseries text = none := by
  induction text with
  | nil => rfl
  | cons a t ih =>
    simp only [scan_flanduse_timeseries, h a (List.mem_cons_self a t)]
    exact ih (fun l hl => h l (List.mem_cons_of_mem a hl))

/-- C7: on namelist text containing a well-formed
`flanduse_timeseries = 'X'` line (any number of leading spaces; `X` free of
quotes and newlines) preceded by non-matching lines, the scanner extracts
exactly `X`; on text with no matching line it returns `none` instead of
raising. -/
theorem flanduse_scanner_spec (pre post : List String) (k : ℕ) (x : String)
    (hpre : ∀ l ∈ pre, matchFlanduse l = none)
    (hx : ∀ c ∈ x.data, c ≠ quoteChar ∧ c ≠ newlineChar) :
    scan_flanduse_timeseries (pre ++
        String.mk (List.replicate k ' ' ++
          ("flanduse_timeseries = ".data ++ quoteChar :: (x.data ++ [quoteChar]))) :: post) =
      some x ∧
    (∀ text : List String, (∀ l ∈ text, matchFlanduse l = none) →
       scan_flanduse_timeseries text = none) := by
  refine ⟨?_, fun text ht => scan_none text ht⟩
  rw [scan_append_none pre _ hpre]
  have hm : matchFlanduse
      (String.mk (List.replicate k ' ' ++
        ("flanduse_timeseries = ".data ++ quoteChar :: (x.data ++ [quoteChar])))) = some x := by
    rw [matchFlanduse_spaces, matchFlanduse_value x.data hx]
  simp only [scan_flanduse_timeseries, hm]

/-- Witness for C7: a three-line namelist whose middle line sets
`flanduse_timeseries`. -/
theorem flanduse_scanner_spec_witness :
    scan_flanduse_timeseries (["&clm_inparm"] ++
        String.mk (List.replicate 1 ' ' ++
          ("flanduse_timeseries = ".data ++ quoteChar ::
            ("/inputdata/landuse_ts.nc".data ++ [quoteChar]))) :: ["/"]) =
      some "/inputdata/landuse_ts.nc" :=
  (flanduse_scanner_spec ["&clm_inparm"] ["/"] 1 "/inputdata/landuse_ts.nc"
    (by intro l hl; rw [List.mem_singleton] at hl; subst hl; rfl)
    (by decide)).1

/-- C8: behavior of the subprocess runner at a failing invocation (exit
status 1, combined output `"boom"`).  The printed diagnostics are the fixed
guidance lines; they end with the four characters `None` — not the captured
tool output, which reaches only the log file, because stdout/stderr were
redirected there and `CalledProcessError.output` is unset — and the failure
is re-raised (the outcome is an error), never swallowed. -/
theorem runner_failure_diagnostics :
    run_python_script "/case" (fun _ => ((1 : ℤ), "boom")) true "python3 t.py"
        "/tools/generate_gdds.py" =
      ("command: . /case/.env_mach_specific.sh;   conda run -n ctsm_pylib python3 t.py" ::
         guidance_lines "generate_gdds.py",
       ("generate_gdds.py.log", "boom"),
       Except.error
         "CalledProcessError: . /case/.env_mach_specific.sh;   conda run -n ctsm_pylib python3 t.py") ∧
    "boom" ∉ (run_python_script "/case" (fun _ => ((1 : ℤ), "boom")) true "python3 t.py"
        "/tools/generate_gdds.py").1 ∧
    "None" ∈ (run_python_script "/case" (fun _ => ((1 : ℤ), "boom")) true "python3 t.py"
        "/tools/generate_gdds.py").1 := by
  refine ⟨rfl, by decide, by decide⟩

/-- C9: the land-use generator is invoked exactly when the test-specific
output file does not already exist, and then with explicit year bounds
`-y1 run_startyear` and `-yN run_startyear + run_Nyears`; the
`flanduse_timeseries` namelist line pointing at the output is appended in
either case. -/
theorem make_lu_invocation_spec (caseroot ctsm_root flanduse_in : String)
    (fe : String → Bool) (startyear nY : ℤ) :
    (fe (pathJoin (path_gddgen caseroot) "flanduse_timeseries.nc") = false →
      (run_make_lu_for_gddgen caseroot ctsm_root fe startyear nY flanduse_in).1 =
        some (make_lu_args ctsm_root flanduse_in
          (pathJoin (path_gddgen caseroot) "flanduse_timeseries.nc") startyear (startyear + nY)) ∧
      ("-y1 " ++ toString startyear) ∈ make_lu_args ctsm_root flanduse_in
          (pathJoin (path_gddgen caseroot) "flanduse_timeseries.nc") startyear (startyear + nY) ∧
      ("-yN " ++ toString (startyear + nY)) ∈ make_lu_args ctsm_root flanduse_in
          (pathJoin (path_gddgen caseroot) "flanduse_timeseries.nc") startyear (startyear + nY)) ∧
    (fe (pathJoin (path_gddgen caseroot) "flanduse_timeseries.nc") = true →
      (run_make_lu_for_gddgen caseroot ctsm_root fe startyear nY flanduse_in).1 = none) ∧
    (run_make_lu_for_gddgen caseroot ctsm_root fe startyear nY flanduse_in).2 =
      "flanduse_timeseries = " ++
        quoted (pathJoin (path_gddgen caseroot) "flanduse_timeseries.nc") := by
  refine ⟨fun h => ?_, fun h => ?_, rfl⟩
  · refine ⟨?_, by simp [make_lu_args], by simp [make_lu_args]⟩
    simp [run_make_lu_for_gddgen, h]
  · simp [run_make_lu_for_gddgen, h]

/-- Witness for C9: a missing output file in a concrete clone root. -/
theorem make_lu_invocation_spec_witness :
    (run_make_lu_for_gddgen "/case" "/ctsm" (fun _ => false) 2000 5 "/inputdata/lu.nc").1 =
      some (make_lu_args "/ctsm" "/inputdata/lu.nc"
        (pathJoin (path_gddgen "/case") "flanduse_timeseries.nc") 2000 (2000 + 5)) ∧
    ("-y1 " ++ toString (2000 : ℤ)) ∈ make_lu_args "/ctsm" "/inputdata/lu.nc"
        (pathJoin (path_gddgen "/case") "flanduse_timeseries.nc") 2000 (2000 + 5) := by
  obtain ⟨h1, -, -⟩ :=
    make_lu_invocation_spec "/case" "/ctsm" "/inputdata/lu.nc" (fun _ => false) 2000 5
  obtain ⟨ha, hb, -⟩ := h1 rfl
  exact ⟨ha, hb⟩

/-- Counterexample to C10 as stated: `"clm (0) default"` carries no
*trailing* marker, so the claimed lookup (lowercase, strip a trailing
` (0)`/` (1)`) finds no recognized name and yields `none`; the source
removes *every* occurrence of the markers and returns the `"clm default"`
color. -/
theorem case_color_lookup_counterexample :
    cropcal_colors_cases "clm (0) default" = some clm_default_color ∧
    cropcal_colors_cases_claim "clm (0) default" = none := by
  exact ⟨rfl, rfl⟩

/-- C10 (amended): the lookup key is the lowercased name with *every*
occurrence of ` (0)` and then ` (1)` removed; the six recognized keys map to
their fixed colors and every other key yields `none` (the function is total,
it never raises). -/
theorem case_color_lookup_spec (s : String) :
    (casename_for_colors s = "clm default" →
       cropcal_colors_cases s = some clm_default_color) ∧
    (casename_for_colors s = "prescribed calendars" →
       cropcal_colors_cases s = some prescribed_calendars_color) ∧
    (casename_for_colors s = "prescribed maturity" →
       cropcal_colors_cases s = some [128/255, 0/255, 0/255]) ∧
    (casename_for_colors s = "prescribed sowing" →
       cropcal_colors_cases s = some [133/255, 92/255, 255/255]) ∧
    (casename_for_colors s = "5.0 lu" →
       cropcal_colors_cases s = some clm_default_color) ∧
    (casename_for_colors s = "5.2 lu" →
       cropcal_colors_cases s = some prescribed_calendars_color) ∧
    (casename_for_colors s ∉ ["clm default", "prescribed calendars", "prescribed maturity",
        "prescribed sowing", "5.0 lu", "5.2 lu"] →
       cropcal_colors_cases s = none) := by
  refine ⟨fun h => ?_, fun h => ?_, fun h => ?_, fun h => ?_, fun h => ?_, fun h => ?_,
    fun h => ?_⟩
  · simp only [cropcal_colors_cases]; rw [h]; rfl
  · simp only [cropcal_colors_cases]; rw [h]; rfl
  · simp only [cropcal_colors_cases]; rw [h]; rfl
  · simp only [cropcal_colors_cases]; rw [h]; rfl
  · simp only [cropcal_colors_cases]; rw [h]; rfl
  · simp only [cropcal_colors_cases]; rw [h]; rfl
  · simp only [cropcal_colors_cases]
    have hnone : case_color_dict.find? (fun p => p.1 == casename_for_colors s) = none := by
      rw [List.find?_eq_none]
      intro p hp
      simp only [List.mem_cons, List.not_mem_nil, or_false] at h
      push_neg at h
      obtain ⟨h1, h2, h3, h4, h5, h6⟩ := h
      simp only [case_color_dict, List.mem_cons, List.not_mem_nil, or_false] at hp
      rcases hp with rfl | rfl | rfl | rfl | rfl | rfl <;>
        simp only [beq_iff_eq] <;> intro he <;>
        first
          | exact h1 he.symm
          | exact h2 he.symm
          | exact h3 he.symm
          | exact h4 he.symm
          | exact h5 he.symm
          | exact h6 he.symm
    rw [hnone]
    rfl

/-- Witness for C10 (amended): an uppercased name with a ` (1)` marker maps
to the `"5.2 lu"` color. -/
theorem case_color_lookup_spec_witness :
    cropcal_colors_cases "5.2 LU (1)" = some prescribed_calendars_color := by
  obtain ⟨-, -, -, -, -, h6, -⟩ := case_color_lookup_spec "5.2 LU (1)"
  exact h6 rfl
